import Mathlib

/-!
Verification of the Telegram group-automation core: a shallow embedding of the
session manager, distribution engine, quota ledger and supervisor (files
`app/session_manager.py`, `app/database.py`, `app/auto_add.py`) together with
theorems settling the specification's claims about them.
-/

namespace TelegramBot

/-! Targets (table `phone_numbers` in `app/database.py`).  A row is a phone
string together with its status; `added_at` ordering is the list order. -/

inductive PhoneStatus
  | pending
  | added
  | invited
  | failed
  deriving DecidableEq, Repr

/-- Rows of the `phone_numbers` table, in `added_at` order. -/
abbrev PhoneTable := List (String × PhoneStatus)

/-- Status of the row for `p`, mirroring a `SELECT status WHERE phone = p`. -/
def statusOf (tbl : PhoneTable) (p : String) : Option PhoneStatus :=
  (tbl.find? (fun e => e.1 = p)).map (fun e => e.2)

/-- Embeds `Database.get_pending_phone_numbers`: rows with status `pending`,
in `added_at` order. -/
def get_pending_phone_numbers (tbl : PhoneTable) : PhoneTable :=
  tbl.filter (fun e => e.2 = PhoneStatus.pending)

/-- Shared body of the `UPDATE phone_numbers SET status = ... WHERE phone = ?`
statements in `mark_phone_added` / `mark_phone_invited` / `mark_phone_failed`. -/
def markPhone (tbl : PhoneTable) (p : String) (st : PhoneStatus) : PhoneTable :=
  tbl.map (fun e => if e.1 = p then (e.1, st) else e)

/-- Embeds `Database.mark_phone_added`. -/
def mark_phone_added (tbl : PhoneTable) (p : String) : PhoneTable :=
  markPhone tbl p PhoneStatus.added

/-- Embeds `Database.mark_phone_invited`. -/
def mark_phone_invited (tbl : PhoneTable) (p : String) : PhoneTable :=
  markPhone tbl p PhoneStatus.invited

/-- Embeds `Database.mark_phone_failed`. -/
def mark_phone_failed (tbl : PhoneTable) (p : String) : PhoneTable :=
  markPhone tbl p PhoneStatus.failed

/-- Embeds `Database.add_to_blacklist` (`INSERT OR IGNORE`). -/
def add_to_blacklist (bl : List String) (u : String) : List String :=
  if bl.contains u then bl else bl ++ [u]

/-- The target-status writes available to the automation (the distribution
engine and `_process_phone_number` only ever call `mark_phone_added`,
`mark_phone_invited` and `mark_phone_failed`; re-queueing to `pending` has no
automated caller). -/
inductive AutoOp
  | markAdded (p : String)
  | markInvited (p : String)
  | markFailed (p : String)
  deriving DecidableEq, Repr

/-- Applies one automated status write to the target table. -/
def apply_auto_op : AutoOp → PhoneTable → PhoneTable
  | AutoOp.markAdded p, tbl => mark_phone_added tbl p
  | AutoOp.markInvited p, tbl => mark_phone_invited tbl p
  | AutoOp.markFailed p, tbl => mark_phone_failed tbl p

/-! Quota ledger (table `session_limits` in `app/database.py`): rows keyed by
(session name, ISO date) holding `users_added`, with a UNIQUE constraint on the
key. -/

/-- Rows of the `session_limits` table: ((session_name, date), users_added). -/
abbrev LimitTable := List ((String × String) × Nat)

/-- The `SELECT users_added WHERE session_name = ? AND date = ?` lookup. -/
def lookupLimit (tbl : LimitTable) (s d : String) : Option Nat :=
  (tbl.find? (fun e => e.1 = (s, d))).map (fun e => e.2)

/-- The `result[0] if result else 0` read of a session's count for a day. -/
def usersAddedOn (tbl : LimitTable) (s d : String) : Nat :=
  (lookupLimit tbl s d).getD 0

/-- Embeds `Database.get_session_daily_limit`: returns
`max_daily - added_today` (a Python int, hence `Int` here). The date argument
is `date.today().isoformat()` in the source. -/
def get_session_daily_limit (tbl : LimitTable) (s today : String)
    (maxDaily : Int) : Int :=
  maxDaily - usersAddedOn tbl s today

/-- Embeds `Database.increment_session_limit`: `INSERT OR IGNORE` a zero row
for (session, today), then `UPDATE users_added = users_added + 1` for that
key. -/
def increment_session_limit (tbl : LimitTable) (s today : String) : LimitTable :=
  let t1 := if (lookupLimit tbl s today).isSome then tbl else tbl ++ [((s, today), 0)]
  t1.map (fun e => if e.1 = (s, today) then (e.1, e.2 + 1) else e)

/-! Generic association-list lemmas used throughout. -/

theorem find?_append_of_none {α : Type _} {l₁ : List α} (l₂ : List α)
    {p : α → Bool} (h : l₁.find? p = none) :
    (l₁ ++ l₂).find? p = l₂.find? p := by
  induction l₁ with
  | nil => rfl
  | cons a t ih =>
    simp only [List.find?] at h ⊢
    cases hpa : p a with
    | true => simp [hpa] at h
    | false =>
      simp only [hpa] at h ⊢
      exact ih h

theorem find?_append_of_some {α : Type _} {l₁ : List α} (l₂ : List α)
    {p : α → Bool} {a : α} (h : l₁.find? p = some a) :
    (l₁ ++ l₂).find? p = some a := by
  induction l₁ with
  | nil => simp [List.find?] at h
  | cons b t ih =>
    simp only [List.find?] at h ⊢
    cases hpb : p b with
    | true => simpa [hpb] using h
    | false =>
      simp only [hpb] at h ⊢
      exact ih h

theorem find?_map_keep_key {κ ν : Type _} [DecidableEq κ]
    (l : List (κ × ν)) (f : κ × ν → κ × ν) (hf : ∀ e, (f e).1 = e.1) (k : κ) :
    (l.map f).find? (fun e => e.1 = k) = (l.find? (fun e => e.1 = k)).map f := by
  induction l with
  | nil => rfl
  | cons a t ih =>
    simp only [List.map_cons, List.find?]
    rw [show decide ((f a).1 = k) = decide (a.1 = k) by rw [hf a]]
    cases h : decide (a.1 = k) with
    | true => simp
    | false => simpa using ih

theorem lookupLimit_map_bump_same (l : LimitTable) (s d : String) :
    lookupLimit (l.map (fun e => if e.1 = (s, d) then (e.1, e.2 + 1) else e)) s d
      = (lookupLimit l s d).map (fun v => v + 1) := by
  have hkey : ∀ e : (String × String) × Nat,
      ((if e.1 = (s, d) then (e.1, e.2 + 1) else e) : (String × String) × Nat).1 = e.1 := by
    intro e
    by_cases h : e.1 = (s, d) <;> simp [h]
  unfold lookupLimit
  rw [find?_map_keep_key _ _ hkey]
  cases hfind : (l.find? (fun e => e.1 = (s, d))) with
  | none => simp
  | some e =>
    have hk : e.1 = (s, d) := by
      have := List.find?_some hfind
      simpa using this
    simp [hk]

theorem lookupLimit_map_bump_other (l : LimitTable) (s d s' d' : String)
    (h : ((s', d') : String × String) ≠ (s, d)) :
    lookupLimit (l.map (fun e => if e.1 = (s, d) then (e.1, e.2 + 1) else e)) s' d'
      = lookupLimit l s' d' := by
  have hkey : ∀ e : (String × String) × Nat,
      ((if e.1 = (s, d) then (e.1, e.2 + 1) else e) : (String × String) × Nat).1 = e.1 := by
    intro e
    by_cases hh : e.1 = (s, d) <;> simp [hh]
  unfold lookupLimit
  rw [find?_map_keep_key _ _ hkey]
  cases hfind : (l.find? (fun e => e.1 = (s', d'))) with
  | none => simp
  | some e =>
    have hk : e.1 = (s', d') := by
      have := List.find?_some hfind
      simpa using this
    have h2 : ¬(s' = s ∧ d' = d) := by
      intro hc
      exact h (by rw [hc.1, hc.2])
    simp [hk, h2]

theorem lookupLimit_append_zero (l : LimitTable) (s d : String)
    (h : lookupLimit l s d = none) :
    lookupLimit (l ++ [((s, d), 0)]) s d = some 0 := by
  have hfind : l.find? (fun e => e.1 = (s, d)) = none := by
    unfold lookupLimit at h
    cases hf : l.find? (fun e => e.1 = (s, d)) with
    | none => rfl
    | some e => rw [hf] at h; simp at h
  unfold lookupLimit
  rw [find?_append_of_none _ hfind]
  simp [List.find?]

theorem lookupLimit_append_other (l : LimitTable) (s d s' d' : String)
    (h : ((s', d') : String × String) ≠ (s, d)) :
    lookupLimit (l ++ [((s, d), 0)]) s' d' = lookupLimit l s' d' := by
  unfold lookupLimit
  cases hfind : (l.find? (fun e => e.1 = (s', d'))) with
  | none =>
    rw [find?_append_of_none _ hfind]
    have h2 : ¬(((s, d), 0) : (String × String) × Nat).1 = (s', d') := by
      intro hc
      exact h (by rw [← hc])
    simp [List.find?, h2]
  | some e =>
    rw [find?_append_of_some _ hfind]

theorem lookupLimit_increment_same (tbl : LimitTable) (s d : String) :
    lookupLimit (increment_session_limit tbl s d) s d =
      some (usersAddedOn tbl s d + 1) := by
  simp only [increment_session_limit]
  by_cases hiso : (lookupLimit tbl s d).isSome
  · rw [if_pos hiso, lookupLimit_map_bump_same]
    cases hl : lookupLimit tbl s d with
    | none => rw [hl] at hiso; simp at hiso
    | some v => simp [usersAddedOn, hl]
  · have hnone : lookupLimit tbl s d = none := by
      cases hl : lookupLimit tbl s d with
      | none => rfl
      | some v => rw [hl] at hiso; simp at hiso
    rw [if_neg hiso, lookupLimit_map_bump_same, lookupLimit_append_zero _ _ _ hnone]
    simp [usersAddedOn, hnone]

theorem lookupLimit_increment_other (tbl : LimitTable) (s d s' d' : String)
    (h : ¬(s' = s ∧ d' = d)) :
    lookupLimit (increment_session_limit tbl s d) s' d' = lookupLimit tbl s' d' := by
  have hne : ((s', d') : String × String) ≠ (s, d) := by
    intro heq
    exact h ⟨congrArg Prod.fst heq, congrArg Prod.snd heq⟩
  simp only [increment_session_limit]
  by_cases hiso : (lookupLimit tbl s d).isSome
  · rw [if_pos hiso, lookupLimit_map_bump_other _ _ _ _ _ hne]
  · rw [if_neg hiso, lookupLimit_map_bump_other _ _ _ _ _ hne,
      lookupLimit_append_other _ _ _ _ _ hne]

/-! QR authentication state machine (`app/session_manager.py`).  The relevant
mutable state of `SessionManager` is: the `user_sessions` map (network user id
→ session name), the `sessions` registry (loaded user handles, by name), the
`sessions` database table, the per-attempt `qr_sessions` status map, the
credential files on disk, and whether the attempt's QR client handle is still
connected. -/

inductive QrStatus
  | generating
  | waiting
  | scanned
  | passwordRequired
  | duplicate
  | expired
  | errored
  deriving DecidableEq, Repr

structure SMState where
  userSessions : List (Nat × String)
  sessions : List String
  dbSessions : List String
  qrSessions : List (String × QrStatus)
  files : List String
  handleConnected : Bool
  deriving DecidableEq, Repr

/-- Path of a user-partition credential file (`sessions_dir/users/name.session`). -/
def userFile (name : String) : String := "users/" ++ name ++ ".session"

/-- Path of an admin-partition credential file (`sessions_dir/admins/name.session`). -/
def adminFile (name : String) : String := "admins/" ++ name ++ ".session"

/-- The guarded update `if session_name in self.qr_sessions:
self.qr_sessions[session_name]["status"] = st` used throughout the source. -/
def setQrStatus (q : List (String × QrStatus)) (name : String) (st : QrStatus) :
    List (String × QrStatus) :=
  if q.any (fun e => e.1 = name) then
    q.map (fun e => if e.1 = name then (e.1, st) else e)
  else q

/-- Status of a QR attempt, `self.qr_sessions.get(name)`. -/
def qrStatusOf (st : SMState) (name : String) : Option QrStatus :=
  (st.qrSessions.find? (fun e => e.1 = name)).map (fun e => e.2)

/-- The `self.user_sessions.get(me.id)` lookup. -/
def lookupUserSession (l : List (Nat × String)) (id : Nat) : Option String :=
  (l.find? (fun e => e.1 = id)).map (fun e => e.2)

/-- Dictionary assignment `m[k] = v` on an association list. -/
def setAssoc {κ ν : Type _} [DecidableEq κ] (l : List (κ × ν)) (k : κ) (v : ν) :
    List (κ × ν) :=
  if l.any (fun e => e.1 = k) then l.map (fun e => if e.1 = k then (e.1, v) else e)
  else l ++ [(k, v)]

/-- Name-keyed insert-or-replace, modelling `INSERT OR REPLACE` on the
`sessions` table and dictionary insertion into the session registry. -/
def insertName (l : List String) (name : String) : List String :=
  if l.contains name then l else l ++ [name]

/-- Embeds the user branch of `SessionManager._persist_authorized_session`:
write the credential file, create the `sessions` row (status `active`),
register the handle and the identity mapping, mark the attempt `scanned`, and
finally disconnect the QR client handle. -/
def persist_authorized_session (st : SMState) (name : String) (meId : Nat) :
    SMState :=
  { st with
    files := insertName st.files (userFile name)
    dbSessions := insertName st.dbSessions name
    sessions := insertName st.sessions name
    userSessions := setAssoc st.userSessions meId name
    qrSessions := setQrStatus st.qrSessions name QrStatus.scanned
    handleConnected := false }

/-- Embeds `SessionManager._cleanup_invalid_session`: disconnect the handle,
delete any credential file created for the attempt in either partition, and
set the attempt's status (when the attempt is still tracked). -/
def cleanup_invalid_session (st : SMState) (name : String) (status : QrStatus) :
    SMState :=
  { st with
    handleConnected := false
    files := st.files.filter (fun f => f ≠ userFile name ∧ f ≠ adminFile name)
    qrSessions := setQrStatus st.qrSessions name status }

/-- Embeds `SessionManager._save_valid_session`.  `meInfo` is the result of
`client.get_me()`: `none` models a failed identity lookup (the raised
exception lands in the `except` block, which runs cleanup with status
`error`).  With a known identity, an existing session for that identity
aborts persistence (status `duplicate`, handle disconnected, nothing
written); otherwise the session is persisted. -/
def save_valid_session (st : SMState) (name : String) (meInfo : Option Nat) :
    SMState :=
  match meInfo with
  | none => cleanup_invalid_session st name QrStatus.errored
  | some meId =>
    match lookupUserSession st.userSessions meId with
    | some _ =>
      { st with
        qrSessions := setQrStatus st.qrSessions name QrStatus.duplicate
        handleConnected := false }
    | none => persist_authorized_session st name meId

/-- Outcome of the bounded wait on the QR scan signal in
`SessionManager._wait_for_scan`: the 300-second timeout fired, the scan signal
fired (with the handle's authorization state and the identity reported by
`get_me`), the two-step-verification condition was reported, or some other
failure occurred. -/
inductive ScanOutcome
  | timeout
  | scanOk (authorized : Bool) (meInfo : Option Nat)
  | twoFaRequired
  | otherFailure
  deriving DecidableEq, Repr

/-- Embeds `SessionManager._wait_for_scan`, the background task driving a QR
attempt from `waiting` to its next state once the awaited signal resolves. -/
def wait_for_scan (st : SMState) (name : String) (outcome : ScanOutcome) :
    SMState :=
  match outcome with
  | ScanOutcome.timeout => cleanup_invalid_session st name QrStatus.expired
  | ScanOutcome.scanOk authorized meInfo =>
    if authorized then save_valid_session st name meInfo
    else cleanup_invalid_session st name QrStatus.errored
  | ScanOutcome.twoFaRequired =>
    { st with qrSessions := setQrStatus st.qrSessions name QrStatus.passwordRequired }
  | ScanOutcome.otherFailure => cleanup_invalid_session st name QrStatus.errored

/-! Distribution engine: `SessionManager.add_users_to_group`
(`app/session_manager.py`, lines 1352-1588).  The network-dependent outcome of
processing one phone with one session is supplied by the environment; the
selection loop, the counters, the quota increments and the status updates are
embedded from the source. -/

/-- Classification of one `_process_phone_number` call as consumed by the
dispatch in `add_users_to_group` (lines 1516-1550). -/
inductive PhoneOutcome
  | added
  | alreadyMember
  | invited
  | failedWith (err : String)
  deriving DecidableEq, Repr

/-- The `results` dict built by `add_users_to_group`. -/
structure RunResults where
  added : Nat
  invited : Nat
  failed : Nat
  skipped : Nat
  total : Nat
  errors : List String
  deriving DecidableEq, Repr

/-- Environment of one run: the `available_sessions` list as computed at lines
1374-1402 (name, remaining quota), whether `get_admin_session_client` returned
a usable handle, whether resolving the target group through it succeeded, and
the outcome of processing each phone. -/
structure EngineEnv where
  availableSessions : List (String × Int)
  adminOk : Bool
  groupResolves : Bool
  outcome : String → PhoneOutcome

/-- Return value and state effects of one `add_users_to_group` run. -/
structure EngineOutput where
  success : Bool
  message : Option String
  results : Option RunResults
  phones : PhoneTable
  limits : LimitTable
  assignments : List String
  deriving Repr

/-- Mutable state of the processing loop. -/
structure LoopState where
  avail : List (String × Int)
  sessionIndex : Nat
  addedCt : Nat
  invitedCt : Nat
  failedCt : Nat
  skippedCt : Nat
  errors : List String
  phones : PhoneTable
  limits : LimitTable
  assignments : List String
  deriving Repr

/-- Embeds the inner selection loop (lines 1488-1497): scan
`j = 0 .. len-1`, probing index `(session_index + j) % len`, and return the
first index whose remaining quota is positive. -/
def findSessionIdx (avail : List (String × Int)) (sessionIndex : Nat) :
    Option Nat :=
  ((List.range avail.length).find? (fun j =>
    match avail.get? ((sessionIndex + j) % avail.length) with
    | some e => 0 < e.2
    | none => false)).map (fun j => (sessionIndex + j) % avail.length)

/-- Embeds the body handling one phone once a session with remaining quota was
selected at index `idx` (lines 1491-1550): advance the round-robin cursor,
dispatch on the processing outcome, update counters, statuses, the quota
ledger and the remaining-quota entry. -/
def stepPhone (today : String) (outcome : String → PhoneOutcome)
    (phone : String) (idx : Nat) (st : LoopState) : LoopState :=
  match st.avail.get? idx with
  | none => st
  | some (name, remaining) =>
    let st := { st with
      sessionIndex := idx + 1
      assignments := st.assignments ++ [name] }
    match outcome phone with
    | PhoneOutcome.added =>
      { st with
        addedCt := st.addedCt + 1
        limits := increment_session_limit st.limits name today
        phones := mark_phone_added st.phones phone
        avail := st.avail.set idx (name, remaining - 1) }
    | PhoneOutcome.alreadyMember =>
      { st with
        addedCt := st.addedCt + 1
        phones := mark_phone_added st.phones phone }
    | PhoneOutcome.invited =>
      { st with
        invitedCt := st.invitedCt + 1
        phones := mark_phone_invited st.phones phone }
    | PhoneOutcome.failedWith err =>
      { st with
        failedCt := st.failedCt + 1
        errors := st.errors ++ [phone ++ ": " ++ err]
        phones := mark_phone_failed st.phones phone }

/-- Embeds the `for phone_data in batch` loop: when no session with remaining
quota is found, set `results["skipped"]` to the count of not-yet-processed
targets and break out of the batch. -/
def processBatch (today : String) (outcome : String → PhoneOutcome)
    (total : Nat) : List String → LoopState → LoopState
  | [], st => st
  | phone :: rest, st =>
    match findSessionIdx st.avail st.sessionIndex with
    | none =>
      { st with skippedCt := total - (st.addedCt + st.failedCt + st.invitedCt) }
    | some idx =>
      processBatch today outcome total rest (stepPhone today outcome phone idx st)

/-- Embeds the outer `for i in range(0, len(pending_phones), batch_size)`
loop: batches are processed in order (a `break` inside a batch only ends that
batch). -/
def processBatches (today : String) (outcome : String → PhoneOutcome)
    (total : Nat) (batches : List (List String)) (st : LoopState) : LoopState :=
  batches.foldl (fun s b => processBatch today outcome total b s) st

/-- Embeds `SessionManager.add_users_to_group`.  The early-return guards come
first: no pending targets, then no candidate sessions, then no admin handle;
a failure to resolve the target group raises inside the `try` at line 1456 and
is returned as `Group access failed` without touching the queue.  Otherwise
the pending targets are processed in batches and a successful result dict is
returned. -/
def add_users_to_group (phones : PhoneTable) (limits : LimitTable)
    (env : EngineEnv) (batchSize : Nat) (today : String) : EngineOutput :=
  let pendingPhones := (get_pending_phone_numbers phones).map (fun e => e.1)
  if pendingPhones.isEmpty then
    { success := false, message := some "No pending phone numbers"
      results := none, phones := phones, limits := limits, assignments := [] }
  else if env.availableSessions.isEmpty then
    { success := false, message := some "No user sessions available"
      results := none, phones := phones, limits := limits, assignments := [] }
  else if !env.adminOk then
    { success := false, message := some "Admin session required"
      results := none, phones := phones, limits := limits, assignments := [] }
  else if !env.groupResolves then
    { success := false, message := some "Group access failed"
      results := none, phones := phones, limits := limits, assignments := [] }
  else
    let st0 : LoopState :=
      { avail := env.availableSessions, sessionIndex := 0
        addedCt := 0, invitedCt := 0, failedCt := 0, skippedCt := 0
        errors := [], phones := phones, limits := limits, assignments := [] }
    let stF := processBatches today env.outcome pendingPhones.length
      (pendingPhones.toChunks batchSize) st0
    { success := true, message := none
      results := some
        { added := stF.addedCt, invited := stF.invitedCt
          failed := stF.failedCt, skipped := stF.skippedCt
          total := pendingPhones.length, errors := stF.errors }
      phones := stF.phones, limits := stF.limits
      assignments := stF.assignments }

/-! Per-target processing: `SessionManager._process_phone_number`
(lines 1796-1922) with its helpers `_add_temp_contact`, `_remove_temp_contact`
(lines 1939-1969), `check_user_in_contacts` (lines 1738-1743),
`_invite_entity_to_group` (lines 1703-1736) and `_send_invite_link`. -/

/-- Result classification of `_invite_entity_to_group` as consumed by
`_process_phone_number`: success (including already-participant), the two
typed errors handled explicitly, or any other failure (broadcast channel,
flood wait, unknown error), which makes the caller raise and fall back. -/
inductive InviteOutcome
  | ok
  | privacyRestricted
  | notMutualContact
  | otherFail (err : String)
  deriving DecidableEq, Repr

/-- Environment for processing one phone: whether the contact import call
succeeds, whether re-resolving the group through the member session (lines
1806-1807) succeeds, whether resolving the phone to a user entity (line 1811)
succeeds, the group-invite outcome, whether an invite link exists, and whether
sending it succeeds. -/
structure ProcEnv where
  contactAddOk : Bool
  groupResolveOk : Bool
  userResolveOk : Bool
  invite : InviteOutcome
  hasInviteLink : Bool
  sendInviteOk : Bool
  deriving DecidableEq, Repr

/-- State after processing one phone: the string returned to the caller, the
session's contact list, the target table and the blacklist. -/
structure ProcResult where
  outcome : String
  contacts : List String
  phones : PhoneTable
  blacklist : List String
  deriving DecidableEq, Repr

/-- Embeds `SessionManager._add_temp_contact`: on success the phone is
imported into the contact list and `True` is returned; on failure the
exception is swallowed and `False` is returned. -/
def add_temp_contact (contacts : List String) (phone : String) (ok : Bool) :
    List String × Bool :=
  if ok then (contacts ++ [phone], true) else (contacts, false)

/-- Embeds `SessionManager._remove_temp_contact` (`DeleteContactsRequest`). -/
def remove_temp_contact (contacts : List String) (phone : String) :
    List String :=
  contacts.filter (fun c => c ≠ phone)

/-- Character-list prefix test, used by the substring check below. -/
def matchesAt : List Char → List Char → Bool
  | [], _ => true
  | _ :: _, [] => false
  | a :: as, b :: bs => a = b && matchesAt as bs

/-- Substring test on character lists (`pat in hay` for Python strings). -/
def containsSub (hay pat : List Char) : Bool :=
  match hay with
  | [] => pat.isEmpty
  | _ :: t => matchesAt pat hay || containsSub t pat

/-- Embeds the blacklisting condition at line 1895:
`any(err in error_msg for err in ["no user", "not found", "invalid",
"not mutual"])` on the lower-cased error text. -/
def blacklist_trigger (msg : String) : Bool :=
  let low := msg.toList.map Char.toLower
  containsSub low "no user".toList || containsSub low "not found".toList ||
    containsSub low "invalid".toList || containsSub low "not mutual".toList

/-- Embeds the generic invite-link fallback of the inner `except` block
(lines 1860-1906): try to deliver the invite link, mark `invited` on success;
otherwise mark `failed` and blacklist identifiers whose error text looks
permanent, returning the error text. -/
def invite_fallback (env : ProcEnv) (phone err : String) (ph : PhoneTable)
    (bl : List String) : String × PhoneTable × List String :=
  if env.hasInviteLink && env.sendInviteOk then
    ("invited", mark_phone_invited ph phone, bl)
  else
    let ph1 := mark_phone_failed ph phone
    let bl1 := if blacklist_trigger err then add_to_blacklist bl phone else bl
    (err, ph1, bl1)

/-- Embeds the body of the inner `try` of `_process_phone_number` (lines
1808-1906): resolve the user, attempt the direct add, handle the two typed
privacy errors with the invite fallback, and treat every other failure
through the generic fallback. -/
def process_inner (env : ProcEnv) (phone : String) (ph : PhoneTable)
    (bl : List String) : String × PhoneTable × List String :=
  if !env.userResolveOk then
    invite_fallback env phone "could not resolve user entity" ph bl
  else
    match env.invite with
    | InviteOutcome.ok => ("added", mark_phone_added ph phone, bl)
    | InviteOutcome.privacyRestricted =>
      if env.hasInviteLink && env.sendInviteOk then
        ("invited", mark_phone_invited ph phone, bl)
      else
        ("Privacy restricted - invite failed", mark_phone_failed ph phone, bl)
    | InviteOutcome.notMutualContact =>
      if env.hasInviteLink && env.sendInviteOk then
        ("invited", mark_phone_invited ph phone, bl)
      else
        ("Not mutual contact - invite failed", mark_phone_failed ph phone,
          add_to_blacklist bl phone)
    | InviteOutcome.otherFail err => invite_fallback env phone err ph bl

/-- Embeds `SessionManager._process_phone_number`.  Step 1 checks the contact
list and imports the phone temporarily when absent.  The group is then
re-resolved through the member session (lines 1806-1807); a failure there
raises past the inner `try`, so the outer `except` marks the target `failed`
and the temporary contact is NOT removed.  Otherwise the inner body runs and
the `finally` (Step 6) removes the contact exactly when it was imported by
this call. -/
def process_phone_number (env : ProcEnv) (phone : String)
    (contacts0 : List String) (ph : PhoneTable) (bl : List String) :
    ProcResult :=
  let phoneInContacts := contacts0.contains phone
  let imported :=
    if phoneInContacts then (contacts0, false)
    else add_temp_contact contacts0 phone env.contactAddOk
  let contacts1 := imported.1
  let contactAdded := imported.2
  if !env.groupResolveOk then
    { outcome := "could not resolve group entity", contacts := contacts1
      phones := mark_phone_failed ph phone, blacklist := bl }
  else
    let inner := process_inner env phone ph bl
    let contacts2 :=
      if contactAdded && !phoneInContacts then remove_temp_contact contacts1 phone
      else contacts1
    { outcome := inner.1, contacts := contacts2
      phones := inner.2.1, blacklist := inner.2.2 }

/-! Supervisor (`app/auto_add.py`). Times are modelled as whole minutes since
an arbitrary UTC epoch, so `t / 1440` is the calendar date and `t % 1440` the
minute of day. -/

/-- The supervisor's `_min_run_interval` (`timedelta(minutes=5)`), in minutes. -/
def minRunInterval : Nat := 5

/-- Embeds `AutoAddSupervisor._calculate_next_run`.  `forcedWakeup` is the
`auto_add_forced_wakeup` setting (the source also clears it, a state effect
not needed here); `lastRun` is the parsed `auto_add_last_run` setting (`none`
when absent or unparseable); `dailyStart` is the parsed `daily_start_time`
hour/minute pair. -/
def calculate_next_run (forcedWakeup : Bool) (lastRun : Option Nat)
    (dailyStart : Option (Nat × Nat)) (now : Nat) : Nat :=
  if forcedWakeup then now
  else
    match dailyStart with
    | some (h, m) =>
      let startToday := (now / 1440) * 1440 + h * 60 + m
      match lastRun with
      | some lr =>
        if lr / 1440 = now / 1440 ∧ startToday ≤ lr then startToday + 1440
        else if startToday ≤ now then now
        else startToday
      | none =>
        if startToday ≤ now then now
        else startToday
    | none =>
      match lastRun with
      | none => now
      | some lr =>
        let earliestNext := lr + minRunInterval
        if now < earliestNext then earliestNext else now

/-- Supervisor state touched by `_execute_cycle`: the in-memory status flag,
the `auto_add_running`, `auto_add_last_result` and `auto_add_last_run`
settings, and the wake event. `lastResult` stores the success flag and a
message or error string. -/
structure SupervisorState where
  statusRunning : Bool
  dbRunning : Bool
  lastResult : Option (Bool × String)
  lastRun : Option Nat
  wakeSet : Bool
  deriving DecidableEq, Repr

/-- How one `add_users_to_group` invocation inside `_execute_cycle` ends:
it returned a result dict (with its success flag), or it (or the
session refresh before it) raised an exception. -/
inductive CycleOutcome
  | completed (success : Bool) (message : String)
  | raised (err : String)
  deriving DecidableEq, Repr

/-- Embeds `AutoAddSupervisor._execute_cycle`: set the running flags, run the
cycle, record the result (and, on normal completion, the last-run time), and
in the `finally` block clear both running flags and the wake event. -/
def execute_cycle (outcome : CycleOutcome) (now : Nat) (st : SupervisorState) :
    SupervisorState :=
  let st1 := { st with statusRunning := true, dbRunning := true }
  let st2 :=
    match outcome with
    | CycleOutcome.completed success message =>
      { st1 with lastResult := some (success, message), lastRun := some now }
    | CycleOutcome.raised err =>
      { st1 with lastResult := some (false, err) }
  { st2 with statusRunning := false, dbRunning := false, wakeSet := false }

/-- The branch taken by one iteration of `AutoAddSupervisor._run_loop` after
the heartbeat: sleep because automation is disabled, no target group, or no
pending targets; wait because the next-run instant is in the future; or launch
`_execute_cycle`. -/
inductive LoopAction
  | sleepDisabled
  | sleepNoGroup
  | sleepNoPending
  | sleepUntilNextRun
  | runCycle
  deriving DecidableEq, Repr

/-- Embeds the decision chain of one `_run_loop` iteration (the `continue`
guards at lines 105-131 of `app/auto_add.py`). -/
def loop_body_action (enabled : Bool) (targetGroup : Option Int)
    (pendingCount : Nat) (now nextRun : Nat) : LoopAction :=
  if !enabled then LoopAction.sleepDisabled
  else if targetGroup.isNone then LoopAction.sleepNoGroup
  else if pendingCount = 0 then LoopAction.sleepNoPending
  else if now < nextRun then LoopAction.sleepUntilNextRun
  else LoopAction.runCycle

/-- Embeds line 82 of `app/auto_add.py`: on loop start, `auto_add_last_run`
is set to the current time before any cycle has run. -/
def run_loop_initial_last_run (loopStart : Nat) : Option Nat := some loopStart

/-! Claim theorems. -/

/-- C5: for every session and calendar day the quota ledger satisfies
remaining = cap − count before and after every increment; an increment raises
exactly the incremented session's count for the given day by 1 and leaves
every other (session, day) count unchanged. -/
theorem c5_quota_ledger_increment (tbl : LimitTable) (s today s' d' : String)
    (cap : Int) (h : ¬(s' = s ∧ d' = today)) :
    get_session_daily_limit tbl s today cap = cap - usersAddedOn tbl s today
    ∧ get_session_daily_limit (increment_session_limit tbl s today) s today cap
        = cap - usersAddedOn (increment_session_limit tbl s today) s today
    ∧ usersAddedOn (increment_session_limit tbl s today) s today
        = usersAddedOn tbl s today + 1
    ∧ usersAddedOn (increment_session_limit tbl s today) s' d'
        = usersAddedOn tbl s' d' := by
  refine ⟨rfl, rfl, ?_, ?_⟩
  · unfold usersAddedOn
    rw [lookupLimit_increment_same]
    rfl
  · unfold usersAddedOn
    rw [lookupLimit_increment_other _ _ _ _ _ h]

/-- Witness for C5 at a concrete ledger. -/
theorem c5_quota_ledger_increment_witness :
    get_session_daily_limit [(("A", "d1"), 3)] "A" "d1" 50
        = 50 - usersAddedOn [(("A", "d1"), 3)] "A" "d1"
    ∧ get_session_daily_limit
        (increment_session_limit [(("A", "d1"), 3)] "A" "d1") "A" "d1" 50
        = 50 - usersAddedOn (increment_session_limit [(("A", "d1"), 3)] "A" "d1") "A" "d1"
    ∧ usersAddedOn (increment_session_limit [(("A", "d1"), 3)] "A" "d1") "A" "d1"
        = usersAddedOn [(("A", "d1"), 3)] "A" "d1" + 1
    ∧ usersAddedOn (increment_session_limit [(("A", "d1"), 3)] "A" "d1") "B" "d1"
        = usersAddedOn [(("A", "d1"), 3)] "B" "d1" :=
  c5_quota_ledger_increment [(("A", "d1"), 3)] "A" "d1" "B" "d1" 50 (by decide)

/-- C7: on every exit path of a distribution cycle (normal completion,
unsuccessful run, or an exception) the `finally` block of `_execute_cycle`
clears both the in-memory running flag and the persisted `auto_add_running`
setting. -/
theorem c7_running_flag_cleared (outcome : CycleOutcome) (now : Nat)
    (st : SupervisorState) :
    (execute_cycle outcome now st).statusRunning = false
    ∧ (execute_cycle outcome now st).dbRunning = false := by
  cases outcome <;> exact ⟨rfl, rfl⟩

/-- Target queue of the C2 scenario: four pending phones. -/
def c2Phones : PhoneTable :=
  [("p1", PhoneStatus.pending), ("p2", PhoneStatus.pending),
   ("p3", PhoneStatus.pending), ("p4", PhoneStatus.pending)]

/-- Engine environment of the C2 scenario: candidate sessions S1(remaining=2),
S2(remaining=0), S3(remaining=1); every processed target is added. -/
def c2Env : EngineEnv :=
  { availableSessions := [("S1", 2), ("S2", 0), ("S3", 1)]
    adminOk := true
    groupResolves := true
    outcome := fun _ => PhoneOutcome.added }

/-- C2: with candidate sessions S1(remaining=2), S2(remaining=0),
S3(remaining=1) and four pending targets each of which would be added, the
round-robin loop assigns the first three targets to S1, S3, S1 in that order,
never selects S2, and the fourth target finds no session with remaining quota
and is counted as skipped (its queue row stays `pending`). -/
theorem c2_round_robin_assignment :
    (add_users_to_group c2Phones [] c2Env 5 "2026-10-12").assignments
      = ["S1", "S3", "S1"]
    ∧ (add_users_to_group c2Phones [] c2Env 5 "2026-10-12").results
      = some { added := 3, invited := 0, failed := 0, skipped := 1, total := 4,
               errors := [] }
    ∧ (add_users_to_group c2Phones [] c2Env 5 "2026-10-12").assignments.contains "S2"
      = false
    ∧ statusOf (add_users_to_group c2Phones [] c2Env 5 "2026-10-12").phones "p4"
      = some PhoneStatus.pending := by
  refine ⟨?_, ?_, ?_, ?_⟩ <;> rfl

/-- C4: with `daily_start_time = "09:00"` (minute 540) and a last run at 09:05
of the current day (minute 545), the computed next run is 09:00 of the next
day; with no daily start time and a last run 2 minutes before now, the
computed next run is the last run plus the 5-minute minimum interval. -/
theorem c4_supervisor_next_run (now₁ now₂ : Nat) (h : 2 ≤ now₂) :
    calculate_next_run false (some ((now₁ / 1440) * 1440 + 545)) (some (9, 0)) now₁
      = (now₁ / 1440) * 1440 + 540 + 1440
    ∧ calculate_next_run false (some (now₂ - 2)) none now₂ = (now₂ - 2) + 5 := by
  constructor
  · have hdiv : ((now₁ / 1440) * 1440 + 545) / 1440 = now₁ / 1440 := by omega
    have hle : (now₁ / 1440) * 1440 + 9 * 60 + 0 ≤ (now₁ / 1440) * 1440 + 545 := by
      omega
    simp [calculate_next_run, hdiv, hle]
  · simp only [calculate_next_run, minRunInterval]
    simp only [Bool.false_eq_true, if_false]
    split <;> omega

/-- Witness for C4 at now₁ = 600 (10:00 of day 0) and now₂ = 10. -/
theorem c4_supervisor_next_run_witness :
    calculate_next_run false (some ((600 / 1440) * 1440 + 545)) (some (9, 0)) 600
      = (600 / 1440) * 1440 + 540 + 1440
    ∧ calculate_next_run false (some (10 - 2)) none 10 = (10 - 2) + 5 :=
  c4_supervisor_next_run 600 10 (by decide)

/-- C10: the supervisor loop records the loop start time as `auto_add_last_run`
before any run; hence, with no forced wake and no daily start time, for any
instant less than 5 minutes (the minimum inter-run interval) after the loop
start, the computed next run is loop start + 5 minutes and the loop body never
launches a cycle, whatever the other settings are. -/
theorem c10_first_run_delayed (loopStart now : Nat) (enabled : Bool)
    (targetGroup : Option Int) (pendingCount : Nat)
    (h : now < loopStart + minRunInterval) :
    calculate_next_run false (run_loop_initial_last_run loopStart) none now
      = loopStart + minRunInterval
    ∧ loop_body_action enabled targetGroup pendingCount now
        (calculate_next_run false (run_loop_initial_last_run loopStart) none now)
      ≠ LoopAction.runCycle := by
  have h1 : calculate_next_run false (run_loop_initial_last_run loopStart) none now
      = loopStart + minRunInterval := by
    simp [calculate_next_run, run_loop_initial_last_run, h]
  refine ⟨h1, ?_⟩
  rw [h1]
  unfold loop_body_action
  split_ifs <;> simp_all

/-- Witness for C10: loop start at minute 0, queried at minute 3, automation
fully enabled with a configured group and pending targets. -/
theorem c10_first_run_delayed_witness :
    calculate_next_run false (run_loop_initial_last_run 0) none 3
      = 0 + minRunInterval
    ∧ loop_body_action true (some 1) 2 3
        (calculate_next_run false (run_loop_initial_last_run 0) none 3)
      ≠ LoopAction.runCycle :=
  c10_first_run_delayed 0 3 true (some 1) 2 (by decide)

theorem statusOf_markPhone (tbl : PhoneTable) (q : String) (s : PhoneStatus)
    (p : String) :
    statusOf (markPhone tbl q s) p
      = (statusOf tbl p).map (fun old => if p = q then s else old) := by
  unfold statusOf markPhone
  have hkey : ∀ e : String × PhoneStatus,
      ((if e.1 = q then (e.1, s) else e) : String × PhoneStatus).1 = e.1 := by
    intro e
    by_cases h : e.1 = q <;> simp [h]
  rw [find?_map_keep_key _ _ hkey]
  cases hf : tbl.find? (fun e => e.1 = p) with
  | none => simp
  | some e =>
    have hk : e.1 = p := by
      have := List.find?_some hf
      simpa using this
    by_cases hpq : p = q <;> simp [hk, hpq]

/-- C9: the automated status writes are one-directional.  Every row selected
for processing by `get_pending_phone_numbers` has status `pending`, and no
automated operation (`mark_phone_added` / `mark_phone_invited` /
`mark_phone_failed`) can make a row `pending` that was not `pending` before:
if a phone reads `pending` after an automated write, it already read `pending`
before it. -/
theorem c9_one_directional_status (tbl : PhoneTable) (op : AutoOp) (p : String)
    (e : String × PhoneStatus)
    (hmem : e ∈ get_pending_phone_numbers tbl)
    (hp : statusOf (apply_auto_op op tbl) p = some PhoneStatus.pending) :
    e.2 = PhoneStatus.pending ∧ statusOf tbl p = some PhoneStatus.pending := by
  constructor
  · have := List.mem_filter.mp hmem
    simpa using this.2
  · have hgen : ∀ (q : String) (s : PhoneStatus), s ≠ PhoneStatus.pending →
        statusOf (markPhone tbl q s) p = some PhoneStatus.pending →
        statusOf tbl p = some PhoneStatus.pending := by
      intro q s hs hmark
      rw [statusOf_markPhone] at hmark
      cases hf : statusOf tbl p with
      | none => rw [hf] at hmark; simp at hmark
      | some v =>
        rw [hf] at hmark
        simp only [Option.map_some', Option.some.injEq] at hmark
        by_cases hpq : p = q
        · rw [if_pos hpq] at hmark
          exact absurd hmark hs
        · rw [if_neg hpq] at hmark
          rw [hmark]
    cases op with
    | markAdded q => exact hgen q PhoneStatus.added (by decide) hp
    | markInvited q => exact hgen q PhoneStatus.invited (by decide) hp
    | markFailed q => exact hgen q PhoneStatus.failed (by decide) hp

/-- Witness for C9: a two-row table where the automation marks one phone added
while the other remains pending. -/
theorem c9_one_directional_status_witness :
    (("p2", PhoneStatus.pending)
        ∈ get_pending_phone_numbers
            [("p1", PhoneStatus.pending), ("p2", PhoneStatus.pending)])
    ∧ statusOf
        (apply_auto_op (AutoOp.markAdded "p1")
          [("p1", PhoneStatus.pending), ("p2", PhoneStatus.pending)]) "p2"
      = some PhoneStatus.pending
    ∧ (("p2", PhoneStatus.pending) : String × PhoneStatus).2 = PhoneStatus.pending
    ∧ statusOf [("p1", PhoneStatus.pending), ("p2", PhoneStatus.pending)] "p2"
      = some PhoneStatus.pending := by
  refine ⟨by decide, by decide, ?_⟩
  exact c9_one_directional_status
    [("p1", PhoneStatus.pending), ("p2", PhoneStatus.pending)]
    (AutoOp.markAdded "p1") "p2" ("p2", PhoneStatus.pending)
    (by decide) (by decide)

theorem find?_setQrStatus_same (q : List (String × QrStatus)) (name : String)
    (s : QrStatus) (h : (q.find? (fun e => e.1 = name)).isSome = true) :
    ((setQrStatus q name s).find? (fun e => e.1 = name)).map (fun e => e.2)
      = some s := by
  obtain ⟨e, he⟩ := Option.isSome_iff_exists.mp h
  have hk : e.1 = name := by
    have := List.find?_some he
    simpa using this
  have hany : q.any (fun e => e.1 = name) = true := by
    rw [List.any_eq_true]
    exact ⟨e, List.mem_of_find?_eq_some he, by simp [hk]⟩
  unfold setQrStatus
  rw [if_pos hany]
  have hkey : ∀ e : String × QrStatus,
      ((if e.1 = name then (e.1, s) else e) : String × QrStatus).1 = e.1 := by
    intro e
    by_cases hh : e.1 = name <;> simp [hh]
  rw [find?_map_keep_key _ _ hkey, he]
  simp [hk]

/-- C6: when the 300-second wait for the scan signal of a tracked `waiting`
attempt times out, `_wait_for_scan` drives the attempt to the terminal state
`expired`, the handle is disconnected and any credential file created for the
attempt (in either partition) is deleted, so the attempt does not remain in
`waiting`. -/
theorem c6_timeout_reaches_expired (st : SMState) (name : String)
    (h : (qrStatusOf st name).isSome = true) :
    qrStatusOf (wait_for_scan st name ScanOutcome.timeout) name
      = some QrStatus.expired
    ∧ (wait_for_scan st name ScanOutcome.timeout).handleConnected = false
    ∧ userFile name ∉ (wait_for_scan st name ScanOutcome.timeout).files
    ∧ adminFile name ∉ (wait_for_scan st name ScanOutcome.timeout).files := by
  have hfind : (st.qrSessions.find? (fun e => e.1 = name)).isSome = true := by
    unfold qrStatusOf at h
    simpa using h
  refine ⟨?_, rfl, ?_, ?_⟩
  · unfold wait_for_scan cleanup_invalid_session qrStatusOf
    exact find?_setQrStatus_same st.qrSessions name QrStatus.expired hfind
  · unfold wait_for_scan cleanup_invalid_session
    intro hmem
    have := (List.mem_filter.mp hmem).2
    simp at this
  · unfold wait_for_scan cleanup_invalid_session
    intro hmem
    have := (List.mem_filter.mp hmem).2
    simp at this

/-- Witness for C6: a state with one tracked attempt in `waiting`, its
credential file on disk and the handle connected. -/
theorem c6_timeout_reaches_expired_witness :
    ((qrStatusOf
        { userSessions := [], sessions := [], dbSessions := []
          qrSessions := [("Session_001", QrStatus.waiting)]
          files := [userFile "Session_001"], handleConnected := true }
        "Session_001").isSome = true)
    ∧ qrStatusOf
        (wait_for_scan
          { userSessions := [], sessions := [], dbSessions := []
            qrSessions := [("Session_001", QrStatus.waiting)]
            files := [userFile "Session_001"], handleConnected := true }
          "Session_001" ScanOutcome.timeout) "Session_001"
      = some QrStatus.expired :=
  ⟨by decide,
    (c6_timeout_reaches_expired
      { userSessions := [], sessions := [], dbSessions := []
        qrSessions := [("Session_001", QrStatus.waiting)]
        files := [userFile "Session_001"], handleConnected := true }
      "Session_001" (by decide)).1⟩

/-- C1: when a QR login completes for a network identity that already has a
registered session, `_save_valid_session` aborts persistence: the tracked
attempt transitions to `duplicate`, the new handle is disconnected, and no
session row, credential file, registry entry or identity mapping is added. -/
theorem c1_duplicate_identity_aborts (st : SMState) (name : String)
    (meId : Nat) (s : String)
    (hdup : lookupUserSession st.userSessions meId = some s)
    (hqr : (qrStatusOf st name).isSome = true) :
    qrStatusOf (save_valid_session st name (some meId)) name
      = some QrStatus.duplicate
    ∧ (save_valid_session st name (some meId)).handleConnected = false
    ∧ (save_valid_session st name (some meId)).dbSessions = st.dbSessions
    ∧ (save_valid_session st name (some meId)).files = st.files
    ∧ (save_valid_session st name (some meId)).userSessions = st.userSessions
    ∧ (save_valid_session st name (some meId)).sessions = st.sessions := by
  have hfind : (st.qrSessions.find? (fun e => e.1 = name)).isSome = true := by
    unfold qrStatusOf at hqr
    simpa using hqr
  have hred : save_valid_session st name (some meId)
      = { st with
          qrSessions := setQrStatus st.qrSessions name QrStatus.duplicate
          handleConnected := false } := by
    simp only [save_valid_session, hdup]
  rw [hred]
  exact ⟨find?_setQrStatus_same st.qrSessions name QrStatus.duplicate hfind,
    rfl, rfl, rfl, rfl, rfl⟩

/-- Witness for C1: identity 7 already owns `Session_001`; a second QR
completion for identity 7 under attempt `Session_002` yields `duplicate` and
changes nothing else. -/
theorem c1_duplicate_identity_aborts_witness :
    (lookupUserSession [(7, "Session_001")] 7 = some "Session_001")
    ∧ qrStatusOf
        (save_valid_session
          { userSessions := [(7, "Session_001")], sessions := ["Session_001"]
            dbSessions := ["Session_001"]
            qrSessions := [("Session_002", QrStatus.waiting)]
            files := [userFile "Session_001"], handleConnected := true }
          "Session_002" (some 7)) "Session_002"
      = some QrStatus.duplicate
    ∧ (save_valid_session
          { userSessions := [(7, "Session_001")], sessions := ["Session_001"]
            dbSessions := ["Session_001"]
            qrSessions := [("Session_002", QrStatus.waiting)]
            files := [userFile "Session_001"], handleConnected := true }
          "Session_002" (some 7)).dbSessions = ["Session_001"] :=
  ⟨by decide,
    (c1_duplicate_identity_aborts
      { userSessions := [(7, "Session_001")], sessions := ["Session_001"]
        dbSessions := ["Session_001"]
        qrSessions := [("Session_002", QrStatus.waiting)]
        files := [userFile "Session_001"], handleConnected := true }
      "Session_002" 7 "Session_001" (by decide) (by decide)).1,
    (c1_duplicate_identity_aborts
      { userSessions := [(7, "Session_001")], sessions := ["Session_001"]
        dbSessions := ["Session_001"]
        qrSessions := [("Session_002", QrStatus.waiting)]
        files := [userFile "Session_001"], handleConnected := true }
      "Session_002" 7 "Session_001" (by decide) (by decide)).2.2.1⟩

/-- C3: each run-level failure of `add_users_to_group` — no pending targets,
no candidate session with remaining quota, no usable admin handle, or a
group-resolution failure — returns an unsuccessful result and leaves the
target table and the quota ledger untouched (these failures all occur before
any target is processed). -/
theorem c3_run_level_failure_no_mutation (phones : PhoneTable)
    (limits : LimitTable) (env : EngineEnv) (batchSize : Nat) (today : String)
    (h : get_pending_phone_numbers phones = []
      ∨ env.availableSessions = []
      ∨ env.adminOk = false
      ∨ env.groupResolves = false) :
    (add_users_to_group phones limits env batchSize today).success = false
    ∧ (add_users_to_group phones limits env batchSize today).phones = phones
    ∧ (add_users_to_group phones limits env batchSize today).limits = limits := by
  simp only [add_users_to_group]
  split_ifs with h1 h2 h3 h4
  · exact ⟨rfl, rfl, rfl⟩
  · exact ⟨rfl, rfl, rfl⟩
  · exact ⟨rfl, rfl, rfl⟩
  · exact ⟨rfl, rfl, rfl⟩
  · exfalso
    rcases h with h | h | h | h <;> simp_all

/-- Witness for C3: a nonempty queue with no candidate sessions. -/
theorem c3_run_level_failure_no_mutation_witness :
    (add_users_to_group [("p1", PhoneStatus.pending)] []
        { availableSessions := [], adminOk := true, groupResolves := true
          outcome := fun _ => PhoneOutcome.added } 5 "2026-10-12").success
      = false
    ∧ (add_users_to_group [("p1", PhoneStatus.pending)] []
        { availableSessions := [], adminOk := true, groupResolves := true
          outcome := fun _ => PhoneOutcome.added } 5 "2026-10-12").phones
      = [("p1", PhoneStatus.pending)]
    ∧ (add_users_to_group [("p1", PhoneStatus.pending)] []
        { availableSessions := [], adminOk := true, groupResolves := true
          outcome := fun _ => PhoneOutcome.added } 5 "2026-10-12").limits
      = [] :=
  c3_run_level_failure_no_mutation [("p1", PhoneStatus.pending)] []
    { availableSessions := [], adminOk := true, groupResolves := true
      outcome := fun _ => PhoneOutcome.added } 5 "2026-10-12"
    (Or.inr (Or.inl rfl))

/-- Environment exhibiting the gap in C8: the contact import succeeds, but
re-resolving the group through the member session (lines 1806-1807 of
`app/session_manager.py`) fails, which raises past the inner `try`/`finally`
into the outer `except`. -/
def c8BadEnv : ProcEnv :=
  { contactAddOk := true, groupResolveOk := false, userResolveOk := true
    invite := InviteOutcome.ok, hasInviteLink := true, sendInviteOk := true }

/-- Counterexample to C8 as stated: phone `p1` is not in the session's
contacts beforehand, processing exits on the `failed` path (the target is
marked `failed`), yet the temporarily imported contact is still present
afterwards — the removal step is skipped on this exit path. -/
theorem c8_counterexample_contact_left_behind :
    (([] : List String).contains "p1" = false)
    ∧ statusOf
        (process_phone_number c8BadEnv "p1" [] [("p1", PhoneStatus.pending)] []).phones
        "p1" = some PhoneStatus.failed
    ∧ (process_phone_number c8BadEnv "p1" [] [("p1", PhoneStatus.pending)] []).contacts.contains
        "p1" = true := by
  exact ⟨rfl, rfl, rfl⟩

/-- C8 (amended): temporary-contact bracketing holds on every exit path of the
add/invite stage — that is, whenever the group re-resolution through the
member session succeeds.  For a phone not already in the session's contacts,
the contact list contains no entry for it after processing, whatever the
outcome; for a phone already present, the contact list is left untouched on
every exit path, including the group re-resolution failure. -/
theorem c8_amended_contact_bracketing (env : ProcEnv) (phone : String)
    (contacts0 : List String) (ph : PhoneTable) (bl : List String) :
    (env.groupResolveOk = true → contacts0.contains phone = false →
      (process_phone_number env phone contacts0 ph bl).contacts.contains phone
        = false)
    ∧ (contacts0.contains phone = true →
      (process_phone_number env phone contacts0 ph bl).contacts = contacts0) := by
  constructor
  · intro hg hc
    unfold process_phone_number
    rw [hg]
    simp only [hc, Bool.false_eq_true, if_false, Bool.not_true, Bool.not_false]
    cases hok : env.contactAddOk with
    | false =>
      simp only [add_temp_contact, hok, Bool.false_eq_true, if_false]
      simpa using hc
    | true =>
      simp only [add_temp_contact, hok, if_true]
      simp only [Bool.true_and, if_true, remove_temp_contact]
      rw [Bool.eq_false_iff]
      intro hmem
      rw [List.elem_iff] at hmem
      have := (List.mem_filter.mp hmem).2
      simp at this
  · intro hc
    unfold process_phone_number
    simp only [hc, if_true]
    cases hg : env.groupResolveOk with
    | false => rfl
    | true => simp

/-- Environment for the happy path of C8: every external call succeeds. -/
def c8GoodEnv : ProcEnv :=
  { contactAddOk := true, groupResolveOk := true, userResolveOk := true
    invite := InviteOutcome.ok, hasInviteLink := true, sendInviteOk := true }

/-- Witness for the amended C8: both branches at concrete inputs — a fresh
phone is gone from the contacts after a successful add, and a phone already
present survives processing untouched. -/
theorem c8_amended_contact_bracketing_witness :
    (process_phone_number c8GoodEnv "p1" [] [("p1", PhoneStatus.pending)]
      []).contacts.contains "p1" = false
    ∧ (process_phone_number c8GoodEnv "p1" ["p1"] [("p1", PhoneStatus.pending)]
      []).contacts = ["p1"] :=
  ⟨(c8_amended_contact_bracketing c8GoodEnv "p1" []
      [("p1", PhoneStatus.pending)] []).1 rfl rfl,
    (c8_amended_contact_bracketing c8GoodEnv "p1" ["p1"]
      [("p1", PhoneStatus.pending)] []).2 rfl⟩

end TelegramBot
